import Mathlib

/-!
Verification development for the rui_lopez repository: a shallow embedding of
the lazy glyph/texture cache (src/playground.rs) and the component-to-drawable
build pipeline (src/elements.rs, src/engines.rs, src/main.rs), with theorems
settling the specification's claims about them.

Conventions of the embedding:
* Rust `u8` / `u32` values are `Nat`; where a u32 multiplication can overflow
  the source's release (wrapping) semantics is made explicit with `% U32`.
* `Vec<u8>` is `List Nat`; in-place mutation becomes explicit state passing.
* `todo!()` (an unconditional panic) is the explicit outcome
  `BuildOutcome.fatalUnimplemented`.
-/

namespace RUILopez

/-- 2^32, the modulus of Rust u32 arithmetic. -/
def U32 : Nat := 2 ^ 32

/-- glyph_brush `Rectangle<u32>`: `min = [minX, minY]`, `max = [maxX, maxY]`. -/
structure GBRect where
  minX : Nat
  minY : Nat
  maxX : Nat
  maxY : Nat
  deriving DecidableEq, Repr

/-- `Rectangle::width()` = `max[0] - min[0]`. -/
def GBRect.width (r : GBRect) : Nat := r.maxX - r.minX

/-- `Rectangle::height()` = `max[1] - min[1]`. -/
def GBRect.height (r : GBRect) : Nat := r.maxY - r.minY

/-- The target rectangle's pixel count: width times height. -/
def rectArea (r : GBRect) : Nat := r.width * r.height

/-- `struct LazyTexture` from src/playground.rs: the raw single-channel alpha
buffer and the current texture dimensions `(width, height)`.  The source's
third field `internal_update` is a function pointer that is always
`backup_update_texture` (set once in `new_empty`, never reassigned); its
behaviour is embedded as `buildNewData` below. -/
structure LazyTexture where
  raw_data : List Nat
  tex_dims : Nat × Nat
  deriving DecidableEq, Repr

/-- `LazyTexture::new_empty()`: empty buffer, 0x0 dimensions. -/
def LazyTexture.new_empty : LazyTexture :=
  { raw_data := [], tex_dims := (0, 0) }

/-- Rust `Vec::resize(new_len, v)`: truncate to `new_len` if shorter, else
extend with copies of `v`; the existing prefix is kept in place. -/
def listResize (l : List Nat) (n : Nat) (v : Nat) : List Nat :=
  if n ≤ l.length then l.take n else l ++ List.replicate (n - l.length) v

/-- `LazyTexture::resize(dims)`: sets `tex_dims` and calls
`raw_data.resize((dims.0 * dims.1) as usize, 0)`.  The multiplication is
performed in u32, hence the explicit `% U32` (wrapping, release semantics;
a debug build would panic on overflow instead). -/
def LazyTexture.resize (t : LazyTexture) (dims : Nat × Nat) : LazyTexture :=
  { raw_data := listResize t.raw_data ((dims.1 * dims.2) % U32) 0,
    tex_dims := dims }

/-- Result of `LazyTexture::lazy_update`: `Ok(())` or `Err(SizeMismatch)`. -/
inductive UpdResult where
  | ok
  | sizeMismatch
  deriving DecidableEq, Repr

/-- The loop body of `LazyTexture::lazy_update`, iterating over `raw_data`
with index `i` while consuming `data` (the `tex_data` iterator).  Mirrors the
source exactly: the row is computed as `y = i / tex_dims.1` (division by the
HEIGHT) and the column as `x = i % tex_dims.0`; a cell is written when
`y ∈ [minY, maxY)` and `x ∈ [minX, maxX)`.  Returns the updated buffer (cells
past the point where the iterator ran dry stay untouched, as the source's `?`
returns early), the unconsumed rest of `data`, and whether the iterator ran
dry (`.ok_or(SizeMismatch)?` fired). -/
def lazyUpdateGo (w h : Nat) (r : GBRect) :
    Nat → List Nat → List Nat → List Nat × List Nat × Bool
  | _, [], data => ([], data, false)
  | i, a :: rest, data =>
    if i / h ≥ r.minY ∧ i / h < r.maxY ∧ i % w ≥ r.minX ∧ i % w < r.maxX then
      match data with
      | [] => (a :: rest, [], true)
      | d :: ds =>
        let p := lazyUpdateGo w h r (i + 1) rest ds
        (d :: p.1, p.2.1, p.2.2)
    else
      let p := lazyUpdateGo w h r (i + 1) rest data
      (a :: p.1, p.2.1, p.2.2)

/-- `LazyTexture::lazy_update(rect, tex_data)`: splices `tex_data` into the
cells of `raw_data` that fall inside `rect`; errors with `SizeMismatch` when
the data runs out before the matching cells do, or when data is left over
after the loop.  Mutation survives an error, so the updated state is returned
alongside the result. -/
def LazyTexture.lazy_update (t : LazyTexture) (rect : GBRect)
    (tex_data : List Nat) : LazyTexture × UpdResult :=
  let p := lazyUpdateGo t.tex_dims.1 t.tex_dims.2 rect 0 t.raw_data tex_data
  ({ t with raw_data := p.1 },
   if p.2.2 then UpdResult.sizeMismatch
   else if p.2.1 = [] then UpdResult.ok else UpdResult.sizeMismatch)

/-- `struct Color` from src/playground.rs. -/
structure Color where
  r : Nat
  g : Nat
  b : Nat
  a : Nat
  deriving DecidableEq, Repr

/-- The pixel-synthesis loop of `backup_update_texture`: for each stored alpha
byte, `sdl_color = (r, g, b, alpha)` is mapped through the RGBA32 pixel
format and appended in native byte order, which for RGBA32 is the memory
order `[r, g, b, a]` on every endianness. -/
def buildNewData (c : Color) : List Nat → List Nat
  | [] => []
  | a :: rest => c.r :: c.g :: c.b :: a :: buildNewData c rest

/-- `LazyTexture::create_texture(tex_creator, color)`: materializes the whole
buffer, invoking `internal_update` (= `backup_update_texture`) on the full
rectangle; the embedding returns the packed RGBA bytes uploaded to the
backend texture. -/
def LazyTexture.create_texture (t : LazyTexture) (c : Color) : List Nat :=
  buildNewData c t.raw_data

/-- `n` copies of a fixed pixel's bytes, used to state what a materialized
uniform buffer looks like. -/
def repeatPixel (p : List Nat) : Nat → List Nat
  | 0 => []
  | n + 1 => p ++ repeatPixel p n

/-- `glyph_brush::BrushAction`: fresh vertices or redraw of last frame. -/
inductive BrushAction where
  | draw
  | redraw
  deriving DecidableEq, Repr

/-- One response of the glyph-layout engine's `process_queued`: success, or
`BrushError::TextureTooSmall { suggested }`. -/
inductive EngineStep where
  | ok (a : BrushAction)
  | tooSmall (suggested : Nat × Nat)
  deriving DecidableEq, Repr

/-- The retry loop of `LazySDLText::build_text` (src/playground.rs lines
249-288), with the glyph-layout engine modeled as an input: `engine k` is the
result of the (k+1)-th `process_queued` call.  On `TextureTooSmall` the source
resizes the lazy texture to the suggested dimensions and retries; the source
loop has no other exit, so termination is observed through fuel: `none` means
the loop is still running after `fuel` iterations. -/
def buildTextLoop (engine : Nat → EngineStep) :
    LazyTexture → Nat → Nat → Option (BrushAction × LazyTexture)
  | _, _, 0 => none
  | t, k, fuel + 1 =>
    match engine k with
    | EngineStep.ok a => some (a, t)
    | EngineStep.tooSmall suggested =>
        buildTextLoop engine (t.resize suggested) (k + 1) fuel

/-- `enum Dimension` from src/elements.rs. -/
inductive Dimension where
  | relative (d : Int)
  | percentage (p : Int)
  | pixels (n : Int)
  deriving DecidableEq, Repr

/-- `struct MenuItem` from src/elements.rs. -/
structure MenuItem where
  title : String
  deriving DecidableEq, Repr

/-- `enum Submenu` from src/elements.rs; the `Menu` payload's two fields
(title and children) are inlined here to avoid a mutual inductive, which
loses nothing the claims depend on. -/
inductive Submenu where
  | menu (title : String) (children : List Submenu)
  | menuItem (mi : MenuItem)
  deriving Repr

/-- `struct Menu` from src/elements.rs. -/
structure Menu where
  title : String
  children : List Submenu
  deriving Repr

/-- `struct MainMenu` from src/elements.rs. -/
structure MainMenu where
  menu : Menu
  deriving Repr

/-- The closed set of concrete component variants implementing `Component` /
`SDLComponent` in the source; a `Container`'s heterogeneous `children:
Vec<Box<dyn Component>>` becomes a list of this sum type.  A `Button`'s
`on_action` function pointer is not modeled (no claim observes it);
`TextField` keeps its `text` and `editable` fields, `Button` its `title`. -/
inductive ComponentV where
  | mainMenu (m : MainMenu)
  | container (width height : Dimension) (children : List ComponentV)
  | ruiIcon
  | sdlText (text : String) (native_size : Nat)
  | button (title : String)
  | textField (text : String) (editable : Bool)
  deriving Repr

/-- `struct Container` from src/elements.rs (used by `Window`); its children
may mix component variants. -/
structure Container where
  width : Dimension
  height : Dimension
  children : List ComponentV
  deriving Repr

/-- `struct Window` from src/elements.rs: optional main menu, container and
status bar, plus title and declared dimensions. -/
structure Window where
  title : String
  menu : Option MainMenu
  container : Option Container
  status_bar : Option Unit
  height : Dimension
  width : Dimension
  deriving Repr

/-- `SDL_FPoint` (f32 coordinates); every coordinate the source stores is an
exactly representable small integer and no float arithmetic is performed, so
`Int` components are faithful. -/
structure SDLFPoint where
  x : Int
  y : Int
  deriving DecidableEq, Repr

/-- `SDL_Color`. -/
structure SDLColor where
  r : Nat
  g : Nat
  b : Nat
  a : Nat
  deriving DecidableEq, Repr

/-- `SDL_Vertex`: position, color, texture coordinate. -/
structure SDLVertex where
  position : SDLFPoint
  color : SDLColor
  tex_coord : SDLFPoint
  deriving DecidableEq, Repr

/-- `struct SDLPolygon` from src/engines.rs: vertex list and index list. -/
structure SDLPolygon where
  vers : List SDLVertex
  inds : List Int
  deriving DecidableEq, Repr

/-- `struct SDLTexturedPolygon` from src/engines.rs; the backend texture
handle is opaque, so `Option Unit`. -/
structure SDLTexturedPolygon where
  poly : SDLPolygon
  tex : Option Unit
  deriving DecidableEq, Repr

/-- `struct SDLBody` from src/engines.rs: diagnostic name plus polygons. -/
structure SDLBody where
  name : String
  polygons : List SDLTexturedPolygon
  deriving DecidableEq, Repr

/-- Outcome of an `SDLComponent::build` call: a drawable body, or the fatal
halt of a `todo!()` (an unconditional panic — the process stops; no body and
no recoverable error is ever returned from such a path). -/
inductive BuildOutcome where
  | body (b : SDLBody)
  | fatalUnimplemented
  deriving DecidableEq, Repr

/-- `impl SDLComponent for MainMenu`: ignores itself and its parent and
returns an empty-polygon body named "MainMenu". -/
def MainMenu.build (_self : MainMenu) (_parent : ComponentV) : SDLBody :=
  { name := "MainMenu", polygons := [] }

/-- The body built by `impl SDLComponent for RUIIcon`: one untextured
triangle with the three colored vertices hard-coded in the source. -/
def ruiIconBody : SDLBody :=
  { name := "RUIIcon",
    polygons :=
      [{ poly :=
          { vers :=
              [{ position := { x := 400, y := 150 },
                 color := { r := 255, g := 0, b := 0, a := 255 },
                 tex_coord := { x := 0, y := 0 } },
               { position := { x := 200, y := 450 },
                 color := { r := 0, g := 0, b := 255, a := 255 },
                 tex_coord := { x := 0, y := 0 } },
               { position := { x := 600, y := 450 },
                 color := { r := 0, g := 255, b := 0, a := 255 },
                 tex_coord := { x := 0, y := 0 } }],
            inds := [] },
         tex := none }] }

/-- `impl SDLComponent for RUIIcon`: parent is ignored. -/
def ruiIconBuild (_parent : ComponentV) : SDLBody := ruiIconBody

/-- `impl SDLComponent for Container`: the body is `todo!()` — the commented
out child loop is dead code, so every call halts. -/
def Container.build (_self : Container) (_parent : ComponentV) : BuildOutcome :=
  BuildOutcome.fatalUnimplemented

/-- `impl SDLComponent for Button`: `todo!()`. -/
def buttonBuild (_title : String) (_parent : ComponentV) : BuildOutcome :=
  BuildOutcome.fatalUnimplemented

/-- `impl SDLComponent for TextField`: `todo!()`. -/
def textFieldBuild (_text : String) (_editable : Bool)
    (_parent : ComponentV) : BuildOutcome :=
  BuildOutcome.fatalUnimplemented

/-- `impl SDLComponent for SDLText`: returns an empty body named "SDLText"
(the text code is a TODO but the path does not panic). -/
def sdlTextBuild (_text : String) (_native_size : Nat)
    (_parent : ComponentV) : SDLBody :=
  { name := "SDLText", polygons := [] }

/-- The capability-erased entry point `Component::build_dyn` followed by the
downcast to `SDLBody`: each variant delegates to its concrete build.  Paths
that are `todo!()` in the source are the fatal outcome. -/
def buildAny (c : ComponentV) (parent : ComponentV) : BuildOutcome :=
  match c with
  | ComponentV.mainMenu _ =>
      BuildOutcome.body { name := "MainMenu", polygons := [] }
  | ComponentV.container _ _ _ => BuildOutcome.fatalUnimplemented
  | ComponentV.ruiIcon => BuildOutcome.body (ruiIconBuild parent)
  | ComponentV.sdlText t n => BuildOutcome.body (sdlTextBuild t n parent)
  | ComponentV.button t => buttonBuild t parent
  | ComponentV.textField t e => textFieldBuild t e parent

/-- `SDLWindow::build` (src/engines.rs lines 241-252): builds the fixed
`RUIIcon` drawable first, then, if the window has a menu, the menu's body;
the `window.container` branch is commented out in the source, so the
container contributes nothing. -/
def SDLWindow.build (w : Window) : List SDLBody :=
  let pseudo := ComponentV.ruiIcon
  let icon := ruiIconBuild pseudo
  let res := [icon]
  match w.menu with
  | some menu => res ++ [menu.build pseudo]
  | none => res

/-- The `MainMenu` constructed in src/main.rs: a "File" menu with the items
"Open" and "Exit". -/
def mainMenuVal : MainMenu :=
  { menu := { title := "File",
              children := [Submenu.menuItem { title := "Open" },
                           Submenu.menuItem { title := "Exit" }] } }

/-- The `Container` constructed in src/main.rs: a non-editable text field
"TextField" followed by a button "Button" (titles from the `Default` impls,
dimensions `Relative(-1)` from `Container::default`). -/
def mainContainer : Container :=
  { width := Dimension.relative (-1),
    height := Dimension.relative (-1),
    children := [ComponentV.textField "TextField" false,
                 ComponentV.button "Button"] }

/-- The `Window` value constructed in src/main.rs: a "Hello World" window
with the "File" menu and the two-child container above (the remaining fields
come from `Window::default`). -/
def mainWindow : Window :=
  { title := "Hello World",
    menu := some mainMenuVal,
    container := some mainContainer,
    status_bar := none,
    height := Dimension.relative (-1),
    width := Dimension.relative (-1) }

/- ============================== Lemmas ==================================== -/

/-- `Vec::resize(n, v)` always leaves a vector of length exactly `n`. -/
theorem listResize_length (l : List Nat) (n v : Nat) :
    (listResize l n v).length = n := by
  unfold listResize
  split
  · rw [List.length_take]; omega
  · rw [List.length_append, List.length_replicate]; omega

/-- `Vec::resize(n, v)` keeps every element whose index survives in the new
length: positions below `min (old length) n` are untouched. -/
theorem listResize_get_lt (l : List Nat) (n v i : Nat)
    (hi : i < l.length) (hn : i < n) :
    (listResize l n v)[i]? = l[i]? := by
  unfold listResize
  split
  · rw [List.getElem?_take_of_lt hn]
  · rw [List.getElem?_append_left hi]

/-- The update loop of `lazy_update` never changes the buffer's length: it
writes cells in place and leaves the rest alone. -/
theorem lazyUpdateGo_length (w h : Nat) (r : GBRect) :
    ∀ (buf : List Nat) (i : Nat) (data : List Nat),
      (lazyUpdateGo w h r i buf data).1.length = buf.length := by
  intro buf
  induction buf with
  | nil => intro i data; rfl
  | cons a rest ih =>
    intro i data
    unfold lazyUpdateGo
    split
    · cases data with
      | nil => rfl
      | cons d ds => simpa using ih (i + 1) ds
    · simpa using ih (i + 1) data

/-- Materializing a buffer all of whose alpha bytes equal `v` yields one
`[r, g, b, v]` pixel per byte. -/
theorem buildNewData_uniform (c : Color) (v : Nat) :
    ∀ l : List Nat, (∀ b ∈ l, b = v) →
      buildNewData c l = repeatPixel [c.r, c.g, c.b, v] l.length := by
  intro l
  induction l with
  | nil => intro _; rfl
  | cons a rest ih =>
    intro hl
    have ha : a = v := hl a (List.mem_cons_self a rest)
    have hr : ∀ b ∈ rest, b = v := fun b hb => hl b (List.mem_cons_of_mem a hb)
    simp [buildNewData, repeatPixel, ha, ih hr]

/- ============================== Claims ==================================== -/

/-- C1: the claim fails on the code. At texture dimensions (2,3) — a state
reachable via `resize` — a `lazy_update` of the single-pixel rectangle
(0,0)-(1,1) with TWO supplied bytes returns `Ok` and writes both bytes into
the buffer, because the loop computes the row as `i / tex_dims.1` (division
by the HEIGHT) while the column is `i % tex_dims.0`; the claim requires a
size-mismatch error whenever the supplied byte count differs from the
rectangle's pixel count.  (The no-out-of-bounds part of the claim does hold:
the loop only ever writes cells of `raw_data`.) -/
theorem C1_size_check_broken :
    ((LazyTexture.new_empty.resize (2, 3)).lazy_update ⟨0, 0, 1, 1⟩ [5, 6]).2
        = UpdResult.ok
      ∧ ([5, 6] : List Nat).length ≠ rectArea ⟨0, 0, 1, 1⟩
      ∧ ((LazyTexture.new_empty.resize (2, 3)).lazy_update ⟨0, 0, 1, 1⟩
            [5, 6]).1.raw_data = [5, 0, 6, 0, 0, 0] := by
  refine ⟨by decide, by decide, by decide⟩

/-- C2: the claim fails on the code. The retry loop of
`LazySDLText::build_text` has no iteration cap and raises no error on
repeated growth requests: against a glyph-layout engine that answers every
`process_queued` call with `TextureTooSmall`, the loop is still running after
any number of iterations (no fuel bound suffices), i.e. it retries forever
instead of terminating with a fatal configuration error. -/
theorem C2_retry_loop_unbounded :
    ∀ (fuel k : Nat) (t : LazyTexture),
      buildTextLoop (fun _ => EngineStep.tooSmall (256, 256)) t k fuel
        = none := by
  intro fuel
  induction fuel with
  | zero => intro k t; rfl
  | succ n ih =>
    intro k t
    simpa [buildTextLoop] using ih (k + 1) (t.resize (256, 256))

/-- C3: the claim fails on the code. Resizing to (2,1) does yield a buffer of
exactly 2*1 bytes, but the subsequent full-rectangle update (0,0)-(2,1) with
exactly 2 bytes returns `SizeMismatch`: because the row is computed as
`i / tex_dims.1` (height, here 1) instead of `i / tex_dims.0`, only the first
cell matches the rectangle and the second supplied byte is left over.  (For
square dimensions, where the swap is invisible, the claimed behaviour does
hold.) -/
theorem C3_full_update_rejected :
    ((LazyTexture.new_empty.resize (2, 1)).raw_data.length = 2 * 1)
      ∧ ((LazyTexture.new_empty.resize (2, 1)).lazy_update ⟨0, 0, 2, 1⟩
            [1, 2]).2 = UpdResult.sizeMismatch := by
  refine ⟨by decide, by decide⟩

/-- C10: confirmed. `lazy_update` is not atomic on error: from the buffer
[0,0,0,0] at dimensions (2,2), updating the full rectangle (0,0)-(2,2) with
only 2 bytes (fewer than the 4-pixel count) returns `SizeMismatch`, yet the
two bytes consumed before the shortfall was detected are already in place —
the post-call buffer differs from the pre-call one. -/
theorem C10_not_atomic_on_error :
    ∃ (t : LazyTexture) (rect : GBRect) (data : List Nat),
      data.length < rectArea rect
        ∧ (t.lazy_update rect data).2 = UpdResult.sizeMismatch
        ∧ (t.lazy_update rect data).1.raw_data ≠ t.raw_data :=
  ⟨⟨[0, 0, 0, 0], (2, 2)⟩, ⟨0, 0, 2, 2⟩, [1, 1],
    by decide, by decide, by decide⟩

/-- C4: the claim fails on the code. `resize` is `Vec::resize`, which keeps
the existing prefix in place: resizing the texture with buffer [7] at (1,1)
to (2,1) yields the buffer [7,0] — the prior byte 7 survives at position 0,
contradicting "no byte of the prior buffer contents is preserved". -/
theorem C4_counterexample_byte_preserved :
    ((⟨[7], (1, 1)⟩ : LazyTexture).resize (2, 1)).raw_data = [7, 0]
      ∧ ((⟨[7], (1, 1)⟩ : LazyTexture).resize (2, 1)).raw_data[0]?
          = (⟨[7], (1, 1)⟩ : LazyTexture).raw_data[0]? := by
  refine ⟨by decide, by decide⟩

/-- C4 (amended): `resize((w,h))` resizes the buffer in place to
`(w*h) % 2^32` bytes; every byte at a position below both the old length and
the new length is preserved unchanged (the extension, if any, is
zero-filled) — prior contents are NOT discarded. -/
theorem C4_resize_keeps_overlap (t : LazyTexture) (dims : Nat × Nat) :
    ((t.resize dims).raw_data.length = (dims.1 * dims.2) % U32)
      ∧ (∀ i, i < t.raw_data.length → i < (dims.1 * dims.2) % U32 →
          (t.resize dims).raw_data[i]? = t.raw_data[i]?) := by
  constructor
  · exact listResize_length t.raw_data ((dims.1 * dims.2) % U32) 0
  · intro i hi hn
    exact listResize_get_lt t.raw_data ((dims.1 * dims.2) % U32) 0 i hi hn

/-- C4 witness: the amended theorem at the buffer [5,6] resized to (3,1) —
the byte 6 survives at position 1 and the new length is 3. -/
theorem C4_witness :
    ((⟨[5, 6], (2, 1)⟩ : LazyTexture).resize (3, 1)).raw_data.length = 3
      ∧ ((⟨[5, 6], (2, 1)⟩ : LazyTexture).resize (3, 1)).raw_data[1]?
          = some 6 := by
  have h := C4_resize_keeps_overlap (⟨[5, 6], (2, 1)⟩ : LazyTexture) (3, 1)
  refine ⟨h.1.trans (by decide), ?_⟩
  have h2 := h.2 1 (by decide) (by decide)
  rw [h2]; decide

/-- C5: confirmed. The `SDLComponent::build` implementations for `Container`,
`Button` and `TextField` are all `todo!()`: whatever the component's fields
and whatever the parent, elaborating any of these variants — directly or
through the capability-erased `buildAny` dispatch — is the fatal,
unrecoverable halt; no drawable body and no recoverable error is returned. -/
theorem C5_unimplemented_variants_fatal :
    (∀ (c : Container) (parent : ComponentV),
        c.build parent = BuildOutcome.fatalUnimplemented)
      ∧ (∀ (title : String) (parent : ComponentV),
          buildAny (ComponentV.button title) parent
            = BuildOutcome.fatalUnimplemented)
      ∧ (∀ (text : String) (editable : Bool) (parent : ComponentV),
          buildAny (ComponentV.textField text editable) parent
            = BuildOutcome.fatalUnimplemented)
      ∧ (∀ (wd ht : Dimension) (children : List ComponentV)
            (parent : ComponentV),
          buildAny (ComponentV.container wd ht children) parent
            = BuildOutcome.fatalUnimplemented) :=
  ⟨fun _ _ => rfl, fun _ _ => rfl, fun _ _ _ => rfl, fun _ _ _ _ => rfl⟩

/-- C6: the claim fails on the code. Elaborating the two-child container
constructed in src/main.rs hits the fatal unimplemented path immediately
(`Container::build` is `todo!()`), so no sequence of Drawable Bodies — let
alone two in child order — is produced. -/
theorem C6_counterexample_container_fatal :
    Container.build mainContainer ComponentV.ruiIcon
      = BuildOutcome.fatalUnimplemented := rfl

/-- C6 (amended): in the current code the scenario's container cannot
elaborate: `Container::build` and the builds of both of its children (the
non-editable text field "TextField" and the button "Button") are fatal
unimplemented paths, and `SDLWindow::build` skips the window's container
entirely — the frame sequence for the main window holds only the icon body
and the menu body. -/
theorem C6_container_scenario_fatal :
    mainWindow.container = some mainContainer
      ∧ Container.build mainContainer ComponentV.ruiIcon
          = BuildOutcome.fatalUnimplemented
      ∧ buildAny (ComponentV.textField "TextField" false) ComponentV.ruiIcon
          = BuildOutcome.fatalUnimplemented
      ∧ buildAny (ComponentV.button "Button") ComponentV.ruiIcon
          = BuildOutcome.fatalUnimplemented
      ∧ SDLWindow.build mainWindow
          = [ruiIconBody, { name := "MainMenu", polygons := [] }] :=
  ⟨rfl, rfl, rfl, rfl, rfl⟩

/-- C7: confirmed. Materializing a Lazy Texture via `create_texture` (which
runs `backup_update_texture`'s per-pixel RGBA32 synthesis over the full
buffer) from an all-zero alpha buffer yields one `[r, g, b, 0]` pixel per
byte — every pixel fully transparent; from an all-0xFF buffer it yields
`[r, g, b, 255]` pixels — every pixel fully opaque, carrying the foreground
color's r, g, b channels. -/
theorem C7_materialize_uniform (t : LazyTexture) (c : Color) :
    ((∀ b ∈ t.raw_data, b = 0) →
        t.create_texture c = repeatPixel [c.r, c.g, c.b, 0] t.raw_data.length)
      ∧ ((∀ b ∈ t.raw_data, b = 255) →
          t.create_texture c
            = repeatPixel [c.r, c.g, c.b, 255] t.raw_data.length) :=
  ⟨fun h0 => buildNewData_uniform c 0 t.raw_data h0,
   fun h255 => buildNewData_uniform c 255 t.raw_data h255⟩

/-- C7 witness: the theorem at an all-zero 2-byte buffer and an all-0xFF
1-byte buffer with foreground color (10, 20, 30). -/
theorem C7_witness :
    (⟨[0, 0], (2, 1)⟩ : LazyTexture).create_texture ⟨10, 20, 30, 40⟩
        = repeatPixel [10, 20, 30, 0] 2
      ∧ (⟨[255], (1, 1)⟩ : LazyTexture).create_texture ⟨10, 20, 30, 40⟩
          = repeatPixel [10, 20, 30, 255] 1 :=
  ⟨(C7_materialize_uniform ⟨[0, 0], (2, 1)⟩ ⟨10, 20, 30, 40⟩).1 (by decide),
   (C7_materialize_uniform ⟨[255], (1, 1)⟩ ⟨10, 20, 30, 40⟩).2 (by decide)⟩

/-- C8: confirmed. For every window, `SDLWindow::build` returns a sequence
whose first element is the fixed introductory icon's body; when the window
has a menu the menu's body follows it and the sequence has length 2,
otherwise the sequence has length 1. -/
theorem C8_window_build_sequence (w : Window) :
    (SDLWindow.build w).head? = some ruiIconBody
      ∧ (SDLWindow.build w).length = (if w.menu.isSome then 2 else 1)
      ∧ (∀ m, w.menu = some m →
          SDLWindow.build w = [ruiIconBody, m.build ComponentV.ruiIcon]) := by
  cases hm : w.menu with
  | none =>
    refine ⟨?_, ?_, ?_⟩
    · simp [SDLWindow.build, hm, ruiIconBuild]
    · simp [SDLWindow.build, hm]
    · intro m hm2
      cases hm2
  | some m =>
    refine ⟨?_, ?_, ?_⟩
    · simp [SDLWindow.build, hm, ruiIconBuild]
    · simp [SDLWindow.build, hm]
    · intro m2 hm2
      cases hm2
      simp [SDLWindow.build, hm, ruiIconBuild]

/-- C8 witness: the theorem at the main window (menu present, length 2) and
at the default window (no menu, length 1). -/
theorem C8_witness :
    (SDLWindow.build mainWindow).length = 2
      ∧ SDLWindow.build mainWindow
          = [ruiIconBody, mainMenuVal.build ComponentV.ruiIcon]
      ∧ (SDLWindow.build { mainWindow with menu := none }).length = 1 := by
  have h1 := C8_window_build_sequence mainWindow
  have h2 := C8_window_build_sequence { mainWindow with menu := none }
  refine ⟨?_, h1.2.2 mainMenuVal rfl, ?_⟩
  · have := h1.2.1
    simpa [mainWindow] using this
  · simpa using h2.2.1

/-- The invariant actually maintained by the source: the buffer's length
equals the u32 wrapping product `(width * height) % 2^32` of the current
dimensions. -/
def lenInvariantM (t : LazyTexture) : Prop :=
  t.raw_data.length = (t.tex_dims.1 * t.tex_dims.2) % U32

/-- C9: the claim fails on the code for dimensions whose pixel count
overflows u32: the product in `resize` is computed in u32 (wrapping in
release builds; a debug build panics instead of establishing anything), so
resizing the empty texture to (65536, 65536) leaves a buffer of 0 bytes,
not 65536*65536 bytes. -/
theorem C9_counterexample_overflow :
    (LazyTexture.new_empty.resize (65536, 65536)).raw_data.length = 0
      ∧ (0 : Nat) ≠ 65536 * 65536 := by
  refine ⟨by decide, by decide⟩

/-- C9 (amended): every Lazy Texture operation preserves the invariant that
the buffer's length equals `(width * height) % 2^32` (u32 wrapping product;
for all dimensions with `w*h < 2^32` this is exactly the claimed `w*h`):
`new_empty` establishes it, `resize` re-establishes it for the new
dimensions, and `lazy_update` never changes the buffer's length. -/
theorem C9_invariant_mod_u32 :
    lenInvariantM LazyTexture.new_empty
      ∧ (∀ (t : LazyTexture) (dims : Nat × Nat), lenInvariantM (t.resize dims))
      ∧ (∀ (t : LazyTexture) (rect : GBRect) (data : List Nat),
          lenInvariantM t → lenInvariantM (t.lazy_update rect data).1) := by
  refine ⟨rfl, ?_, ?_⟩
  · intro t dims
    exact listResize_length t.raw_data ((dims.1 * dims.2) % U32) 0
  · intro t rect data h
    show (lazyUpdateGo t.tex_dims.1 t.tex_dims.2 rect 0 t.raw_data data).1.length
        = (t.tex_dims.1 * t.tex_dims.2) % U32
    rw [lazyUpdateGo_length]
    exact h

/-- C9 witness: the amended invariant holds after resizing the empty texture
to (2,2) and after a subsequent partial update on it. -/
theorem C9_witness :
    (LazyTexture.new_empty.resize (2, 2)).raw_data.length
        = ((2 : Nat) * 2) % U32
      ∧ ((LazyTexture.new_empty.resize (2, 2)).lazy_update ⟨0, 0, 2, 2⟩
            [9, 9, 9, 9]).1.raw_data.length = ((2 : Nat) * 2) % U32 := by
  have h2 := C9_invariant_mod_u32.2.1 LazyTexture.new_empty (2, 2)
  have h3 := C9_invariant_mod_u32.2.2 (LazyTexture.new_empty.resize (2, 2))
    ⟨0, 0, 2, 2⟩ [9, 9, 9, 9] h2
  exact ⟨h2, h3⟩

end RUILopez
